import Mathlib

/-!
Shallow embedding of the Sundt Construction RAG frontend (React / JS) and,
where the backend code is absent from the repository snapshot, of the
behaviour the specification assigns to the backend core.

Sources embedded here:
* `frontend/src/components/ProjectsSearch.js` — two variants of the
  `ProjectsSearch` component (a plain-CSS one and a Bootstrap-styled one)
  sharing the same `handleSubmit` logic;
* `frontend/src/components/AwardsSearch.js` and the Bootstrap-styled
  `AwardsSearch` variant — same structure for the awards endpoint;
* `frontend/src/App.jsx` — the single-page app whose `handleSearch`
  distinguishes injection-blocked backend responses from ordinary results;
* the `Dashboard` component (bundled with the Bootstrap `App`) — metric
  cards, `getTopTerms`;
* the hybrid-scorer `final_score` formula and the per-agent metrics
  collector, modelled from the spec (the backend itself is not in the
  snapshot).

JS strings are modelled as Lean `String` (a list of characters); JS
`undefined`-able values as `Option`; JS numbers as `ℚ`.
-/

/-- Character-level prefix test, used to model JS `String.includes`. -/
def hasPrefixCh : List Char → List Char → Bool
  | [], _ => true
  | _ :: _, [] => false
  | p :: ps, c :: cs => p == c && hasPrefixCh ps cs

/-- Character-level infix test, used to model JS `String.includes`. -/
def hasSubstrCh (pat : List Char) : List Char → Bool
  | [] => hasPrefixCh pat []
  | c :: cs => hasPrefixCh pat (c :: cs) || hasSubstrCh pat cs

/-- Models JS `s.includes(pat)`: `pat` occurs contiguously in `s`. -/
def containsSubstr (s pat : String) : Bool :=
  hasSubstrCh pat.data s.data

/-- Models JS `String.prototype.toLowerCase` (character-wise lowering). -/
def lowerStr (s : String) : String :=
  String.mk (s.data.map Char.toLower)

/-- Models JS `String.prototype.trim`: strip leading and trailing
whitespace characters. -/
def jsTrim (s : String) : String :=
  String.mk (((s.data.dropWhile Char.isWhitespace).reverse.dropWhile
    Char.isWhitespace).reverse)

/-- Models the JS idiom `a || b` on an optional string `a` (JS `undefined`
and the empty string are falsy). -/
def jsOrStr (a : Option String) (b : String) : String :=
  match a with
  | some s => if s = "" then b else s
  | none => b

/-- One project/award card as consumed by the render code: only the fields
the verified claims mention are kept (`title` is always rendered,
`description` conditionally, truncated). -/
structure Item where
  title : String
  description : Option String

/-- The JSON payload of a backend search response as the frontend reads it:
`response.data` in the components, `data` in `App.jsx`. Fields the
frontend accesses optionally are `Option`s. -/
structure SearchData where
  success : Option Bool
  reason : Option String
  response : String
  execution_time : ℚ
  projects : Option (List Item)
  awards : Option (List Item)

/-- Outcome of the components' `axios.post` call: either a resolved
response with a JSON payload, or a thrown error carrying the optional
`err.response?.data?.detail` string. -/
inductive HttpResp
  | ok (data : SearchData)
  | fail (detail : Option String)

/-- The component state touched by `handleSubmit` and the render code
(`error` and `result` of `ProjectsSearch` / `AwardsSearch`). -/
structure CompState where
  error : String
  result : Option SearchData

/-- Embeds `handleSubmit` of `ProjectsSearch` / `AwardsSearch` (identical
in all four component variants up to the generic error message): the
whitespace guard, then `setError('')`/`setResult(null)` followed by the
request; on success the payload is stored, on failure the error message is
`err.response?.data?.detail || genericMsg`. The returned `Bool` records
whether the HTTP request was sent. -/
def handleSubmit (genericMsg : String) (query : String) (resp : HttpResp)
    (prev : CompState) : CompState × Bool :=
  if jsTrim query = "" then
    ({ error := "Please enter a search query", result := prev.result }, false)
  else
    match resp with
    | .ok data => ({ error := "", result := some data }, true)
    | .fail detail => ({ error := jsOrStr detail genericMsg, result := none }, true)

/-- The generic catch-branch message of the projects components. -/
def projectsGenericMsg : String := "An error occurred while searching projects"

/-- The generic catch-branch message of the awards components. -/
def awardsGenericMsg : String := "An error occurred while searching awards"

/-- Models the JSX `{description && <p>…truncated…</p>}` card fragment of
all four components: shown only when the description is truthy; longer
than 150 characters it is `substring(0, 150)` followed by `"..."`. -/
def renderDescription (descr : Option String) : Option String :=
  match descr with
  | some d =>
      if d = "" then none
      else some (if d.length > 150 then String.mk (d.data.take 150) ++ "..." else d)
  | none => none

/-- The claim-relevant elements of a search component's rendered output:
the error alert, the `result.response` paragraph, the elapsed-time label,
the `Matching Projects (n)` / `Matching Awards (n)` heading count, and the
description paragraph of each card in the results section. -/
structure RenderOut where
  errorShown : Option String
  responseShown : Option String
  execTimeShown : Option String
  headingCount : Option Nat
  descriptionsShown : List (Option String)

/-- Fraction part of `toFixed(2)`: exactly two decimal digits. -/
def fracDigits2 (m : ℕ) : List Char :=
  [Nat.digitChar (m / 10 % 10), Nat.digitChar (m % 10)]

/-- Fraction part of `toFixed(3)`: exactly three decimal digits. -/
def fracDigits3 (m : ℕ) : List Char :=
  [Nat.digitChar (m / 100 % 10), Nat.digitChar (m / 10 % 10), Nat.digitChar (m % 10)]

/-- Models JS `x.toFixed(2)` on the rational model of JS numbers: round
`x * 100` to the nearest integer and print it with exactly two digits
after the decimal point. -/
def toFixed2 (q : ℚ) : String :=
  String.mk ((if round (q * 100) < 0 then ['-'] else []) ++
    (toString ((round (q * 100)).natAbs / 100)).data ++ ['.'] ++
    fracDigits2 (round (q * 100)).natAbs)

/-- Models JS `x.toFixed(3)` on the rational model of JS numbers: round
`x * 1000` to the nearest integer and print it with exactly three digits
after the decimal point. -/
def toFixed3 (q : ℚ) : String :=
  String.mk ((if round (q * 1000) < 0 then ['-'] else []) ++
    (toString ((round (q * 1000)).natAbs / 1000)).data ++ ['.'] ++
    fracDigits3 (round (q * 1000)).natAbs)

/-- Shared render body of the four search components. `getItems` selects
`result.projects` or `result.awards`; `showsTime` is true for the
Bootstrap-styled variants, whose response card also shows
`result.execution_time.toFixed(2)`. -/
def renderSearch (getItems : SearchData → Option (List Item))
    (showsTime : Bool) (s : CompState) : RenderOut :=
  { errorShown := if s.error = "" then none else some s.error
  , responseShown := s.result.map SearchData.response
  , execTimeShown :=
      if showsTime then s.result.map (fun r => toFixed2 r.execution_time) else none
  , headingCount :=
      match s.result with
      | some r =>
          match getItems r with
          | some l => if l.length > 0 then some l.length else none
          | none => none
      | none => none
  , descriptionsShown :=
      match s.result with
      | some r =>
          match getItems r with
          | some l =>
              if l.length > 0 then l.map (fun it => renderDescription it.description)
              else []
          | none => []
      | none => [] }

/-- Render of the plain-CSS `ProjectsSearch` variant (no elapsed-time
label in its response block). -/
def renderProjectsPlain (s : CompState) : RenderOut :=
  renderSearch SearchData.projects false s

/-- Render of the Bootstrap-styled `ProjectsSearch` variant (shows
`Query time: {result.execution_time.toFixed(2)} seconds`). -/
def renderProjectsBoot (s : CompState) : RenderOut :=
  renderSearch SearchData.projects true s

/-- Render of the plain-CSS `AwardsSearch` variant. -/
def renderAwardsPlain (s : CompState) : RenderOut :=
  renderSearch SearchData.awards false s

/-- Render of the Bootstrap-styled `AwardsSearch` variant (shows
`Query time: {result.execution_time.toFixed(2)} seconds`). -/
def renderAwardsBoot (s : CompState) : RenderOut :=
  renderSearch SearchData.awards true s

/-- The `App.jsx` state touched by `handleSearch`: `results`, `error`,
`injectionBlocked`. -/
structure AppState where
  results : Option SearchData
  error : Option String
  injectionBlocked : Bool

/-- A backend response as `App.jsx`'s `fetch` sees it: either a non-ok
HTTP response (the handler only reads its status and, for 400, its body
text) or an ok response with a parsed JSON payload. -/
inductive BackendResponse
  | http (status : Nat) (bodyText : String)
  | okJson (data : SearchData)

/-- The payload-level blocked test of `App.jsx`:
`!data.success && data.reason && data.reason.toLowerCase().includes('injection')`. -/
def payloadBlocked (d : SearchData) : Bool :=
  !(d.success == some true) &&
    (match d.reason with
     | some r => !(r == "") && containsSubstr (lowerStr r) "injection"
     | none => false)

/-- Embeds the response processing of `App.jsx`'s `handleSearch` (after
`setError(null)` and `setInjectionBlocked(false)` have run): a 400 whose
body text `includes('injection')` or an ok payload passing
`payloadBlocked` sets `injectionBlocked` and clears `results`; any other
non-ok status throws into the catch (which sets `error` and leaves
`results` untouched); any other ok payload is stored in `results`. -/
def processResponse (prev : AppState) (resp : BackendResponse) : AppState :=
  match resp with
  | .http status body =>
      if status = 400 && containsSubstr body "injection" then
        { results := none, error := none, injectionBlocked := true }
      else
        { results := prev.results
        , error := some ("Search failed: " ++ toString status)
        , injectionBlocked := false }
  | .okJson d =>
      if payloadBlocked d then
        { results := none, error := none, injectionBlocked := true }
      else
        { results := some d, error := none, injectionBlocked := false }

/-- Embeds `App.jsx`'s `handleSearch` entry: `if (!query.trim()) return;`
sends nothing and leaves the state untouched; otherwise the request is
sent and the response processed. The `Bool` records whether a request was
sent. -/
def handleSearchApp (query : String) (resp : BackendResponse)
    (prev : AppState) : AppState × Bool :=
  if jsTrim query = "" then (prev, false)
  else (processResponse prev resp, true)

/-- One agent's entry of the `/metrics` JSON as the `Dashboard` component
reads it; every field access in the component is guarded (`||`, `?.`), so
each field is an `Option`. -/
structure AgentMetricsJs where
  total_queries : Option Nat
  query_times : Option (List ℚ)
  popular_terms : Option (List (String × Nat))
  queries_by_date : Option (List (String × Nat))
  injection_attempts : Option (List (String × String))

/-- The `projectAvgTime` / `awardAvgTime` expression of the `Dashboard`:
`m.query_times && m.query_times.length > 0 ?
(m.query_times.reduce((s,t) => s+t, 0) / m.query_times.length).toFixed(3)
: "N/A"`. -/
def avgTimeDisplay (m : AgentMetricsJs) : String :=
  match m.query_times with
  | some l =>
      if l.length > 0 then toFixed3 ((l.foldl (· + ·) 0) / (l.length : ℚ))
      else "N/A"
  | none => "N/A"

/-- The `Dashboard`'s `Avg Response Time` card text: it is computed from
the projects agent's metrics only (`{projectAvgTime}s`). -/
def dashboardAvgCard (projects awards : AgentMetricsJs) : String :=
  avgTimeDisplay projects ++ "s"

/-- `m.injection_attempts?.length || 0` in the `Dashboard`. -/
def injectionsCount (m : AgentMetricsJs) : Nat :=
  (m.injection_attempts.map List.length).getD 0

/-- The `Dashboard`'s `Injection Attempts` card value:
`projectInjections + awardInjections`. -/
def dashboardInjectionsCard (projects awards : AgentMetricsJs) : Nat :=
  injectionsCount projects + injectionsCount awards

/-- The comparator relation of the `Dashboard`'s
`sort((a, b) => b[1] - a[1])`: descending by count. -/
def byCountDesc (a b : String × Nat) : Prop := b.2 ≤ a.2

instance : DecidableRel byCountDesc := fun a b => inferInstanceAs (Decidable (b.2 ≤ a.2))

instance : IsTotal (String × Nat) byCountDesc := ⟨fun a b => le_total b.2 a.2⟩

instance : IsTrans (String × Nat) byCountDesc := ⟨fun _ _ _ hab hbc => le_trans hbc hab⟩

/-- Embeds the `Dashboard`'s `getTopTerms`: `null`/missing mapping gives
`[]`; otherwise the entries are sorted descending by count
(`sort((a, b) => b[1] - a[1])`, modelled as a sort consistent with that
comparator) and the first 10 are taken (`slice(0, 10)`). -/
def getTopTerms (terms : Option (List (String × Nat))) : List (String × Nat) :=
  match terms with
  | none => []
  | some l => (List.insertionSort byCountDesc l).take 10

/-- Modelled from the spec: the Hybrid Scorer's combination formula
(§4.2) — the scorer itself is not in the repository snapshot, only its
frontend consumers are. `final_score = vector_score * (1 + 0.1 *
keyword_matches) * (1 + 0.1 * field_boost)` with `vector_score` a float in
`[0,1]`, `keyword_matches` a nonnegative integer and `field_boost` a
nonnegative float. -/
def final_score (vector_score : ℚ) (keyword_matches : ℕ) (field_boost : ℚ) : ℚ :=
  vector_score * (1 + (1 / 10) * (keyword_matches : ℚ)) * (1 + (1 / 10) * field_boost)

/-- Modelled from the spec: one agent's `MetricsState` (§3) — the metrics
collector is not in the repository snapshot. `popular_terms` and
`queries_by_date` are association lists term/date → count. -/
structure MetricsState where
  total_queries : ℕ
  query_times : List ℚ
  popular_terms : List (String × ℕ)
  queries_by_date : List (String × ℕ)
  injection_attempts : List (String × String)

/-- Modelled from the spec: the empty `MetricsState` an agent starts
with. -/
def initMetrics : MetricsState :=
  { total_queries := 0
  , query_times := []
  , popular_terms := []
  , queries_by_date := []
  , injection_attempts := [] }

/-- Increment the count of `k` in an association list, inserting it at
count 1 when absent. -/
def bumpCount : List (String × ℕ) → String → List (String × ℕ)
  | [], t => [(t, 1)]
  | (k, v) :: rest, t =>
      if k = t then (k, v + 1) :: rest else (k, v) :: bumpCount rest t

/-- Modelled from the spec: a minimal stop-word list for token
normalization (§4.4 leaves the exact list open). -/
def stopWords : List String :=
  ["the", "a", "an", "and", "or", "of", "in", "on", "for", "to", "is", "what", "about"]

/-- Modelled from the spec: token normalization of §4.4 — lower-cased,
split on spaces, stop-words removed, deduplicated per query. -/
def normalizeTokens (q : String) : List String :=
  (((lowerStr q).data.splitOn ' ').map String.mk).filter
    (fun t => t ≠ "" && !stopWords.contains t) |>.dedup

/-- Modelled from the spec: `record_success(duration, query_text,
timestamp)` (§4.4): increments `total_queries`, appends `duration` to
`query_times`, increments `queries_by_date[date]` and `popular_terms[t]`
for each normalized token of the query. The timestamp is represented by
its ISO date string. -/
def record_success (s : MetricsState) (duration : ℚ) (queryText date : String) :
    MetricsState :=
  { total_queries := s.total_queries + 1
  , query_times := s.query_times ++ [duration]
  , popular_terms := (normalizeTokens queryText).foldl bumpCount s.popular_terms
  , queries_by_date := bumpCount s.queries_by_date date
  , injection_attempts := s.injection_attempts }

/-- Modelled from the spec: `record_injection(query_text, timestamp)`
(§4.4): appends `{date, query_text}` to `injection_attempts` and touches
nothing else. -/
def record_injection (s : MetricsState) (queryText date : String) : MetricsState :=
  { s with injection_attempts := s.injection_attempts ++ [(date, queryText)] }

/-- One logged operation against an agent's metrics state. -/
inductive MetricsOp
  | success (duration : ℚ) (queryText date : String)
  | injection (queryText date : String)

/-- Apply one metrics operation. -/
def applyOp (s : MetricsState) : MetricsOp → MetricsState
  | .success d q t => record_success s d q t
  | .injection q t => record_injection s q t

/-- Apply a sequence of metrics operations in order. -/
def applyOps (s : MetricsState) (ops : List MetricsOp) : MetricsState :=
  ops.foldl applyOp s

/-- The number of successful-query operations in a sequence. -/
def countSuccess (ops : List MetricsOp) : ℕ :=
  ops.countP (fun op => match op with | .success _ _ _ => true | _ => false)

lemma jsTrim_eq_empty_of_all_ws (q : String)
    (h : q.data.all Char.isWhitespace = true) : jsTrim q = "" := by
  unfold jsTrim
  have h1 : q.data.dropWhile Char.isWhitespace = [] :=
    List.dropWhile_eq_nil_iff.mpr (by simpa [List.all_eq_true] using h)
  rw [h1]
  rfl

/-- C2: a query that is empty or consists only of whitespace is rejected
by the submit handlers before any other processing: the components'
`handleSubmit` sends no HTTP request, leaves `result` unchanged (so a null
result stays null) and sets the error message `Please enter a search
query`; `App.jsx`'s `handleSearch` sends no request and changes nothing. -/
theorem empty_query_rejected (q : String)
    (hq : q.data.all Char.isWhitespace = true) :
    (∀ genericMsg resp prev,
        handleSubmit genericMsg q resp prev =
          ({ error := "Please enter a search query", result := prev.result }, false)) ∧
    (∀ resp prev, handleSearchApp q resp prev = (prev, false)) := by
  have ht : jsTrim q = "" := jsTrim_eq_empty_of_all_ws q hq
  constructor
  · intro genericMsg resp prev
    simp [handleSubmit, ht]
  · intro resp prev
    simp [handleSearchApp, ht]

theorem empty_query_rejected_witness :
    (" ".data.all Char.isWhitespace = true) ∧
    handleSubmit projectsGenericMsg " " (.fail none) ⟨"", none⟩ =
      ({ error := "Please enter a search query", result := none }, false) ∧
    handleSearchApp " " (.http 500 "") ⟨none, none, false⟩ = (⟨none, none, false⟩, false) :=
  ⟨by decide,
   (empty_query_rejected " " (by decide)).1 projectsGenericMsg (.fail none) ⟨"", none⟩,
   (empty_query_rejected " " (by decide)).2 (.http 500 "") ⟨none, none, false⟩⟩

/-- C5: when the HTTP call of a component's `handleSubmit` fails, the
component ends with `result = null` and a non-empty error message — the
backend's `detail` when it is a non-empty string, the generic message
otherwise — and every component variant renders that state as an error
alert with no response block, never as an empty or blocked result. -/
theorem http_failure_distinct_error (genericMsg q : String) (detail : Option String)
    (prev : CompState) (hq : jsTrim q ≠ "") (hgen : genericMsg ≠ "") :
    (handleSubmit genericMsg q (.fail detail) prev).1.result = none ∧
    (handleSubmit genericMsg q (.fail detail) prev).1.error ≠ "" ∧
    (∀ d, detail = some d → d ≠ "" →
      (handleSubmit genericMsg q (.fail detail) prev).1.error = d) ∧
    (detail = none →
      (handleSubmit genericMsg q (.fail detail) prev).1.error = genericMsg) ∧
    (∀ getItems showsTime,
      (renderSearch getItems showsTime (handleSubmit genericMsg q (.fail detail) prev).1).errorShown =
        some (handleSubmit genericMsg q (.fail detail) prev).1.error ∧
      (renderSearch getItems showsTime (handleSubmit genericMsg q (.fail detail) prev).1).responseShown =
        none) := by
  have herr : jsOrStr detail genericMsg ≠ "" := by
    cases detail with
    | none => simpa [jsOrStr] using hgen
    | some d =>
        by_cases hd : d = "" <;> simp [jsOrStr, hd, hgen]
  refine ⟨by simp [handleSubmit, hq], by simpa [handleSubmit, hq] using herr, ?_, ?_, ?_⟩
  · intro d hd hne
    simp [handleSubmit, hq, hd, jsOrStr, hne]
  · intro hd
    simp [handleSubmit, hq, hd, jsOrStr]
  · intro getItems showsTime
    simp [handleSubmit, hq, renderSearch, herr]

theorem http_failure_distinct_error_witness :
    jsTrim "water" ≠ "" ∧ projectsGenericMsg ≠ "" ∧
    (handleSubmit projectsGenericMsg "water" (.fail none) ⟨"", none⟩).1.result = none ∧
    (handleSubmit projectsGenericMsg "water" (.fail none) ⟨"", none⟩).1.error =
      projectsGenericMsg :=
  ⟨by decide, by decide,
   (http_failure_distinct_error projectsGenericMsg "water" none ⟨"", none⟩
      (by decide) (by decide)).1,
   (http_failure_distinct_error projectsGenericMsg "water" none ⟨"", none⟩
      (by decide) (by decide)).2.2.2.1 rfl⟩

/-- C4: a successful response whose results array is present but empty is
still rendered as an answered response by every component variant: the
response text is displayed, no error alert is shown, and the
`Matching Projects` / `Matching Awards` heading is not rendered. -/
theorem empty_results_still_answered (genericMsg q : String) (data : SearchData)
    (prev : CompState) (hq : jsTrim q ≠ "") :
    ∀ getItems showsTime, getItems data = some [] →
      (renderSearch getItems showsTime (handleSubmit genericMsg q (.ok data) prev).1).responseShown =
        some data.response ∧
      (renderSearch getItems showsTime (handleSubmit genericMsg q (.ok data) prev).1).errorShown =
        none ∧
      (renderSearch getItems showsTime (handleSubmit genericMsg q (.ok data) prev).1).headingCount =
        none := by
  intro getItems showsTime hempty
  simp [handleSubmit, hq, renderSearch, hempty]

theorem empty_results_still_answered_witness :
    jsTrim "water" ≠ "" ∧
    (renderProjectsPlain
        (handleSubmit projectsGenericMsg "water"
          (.ok ⟨none, none, "no projects found", 1, some [], none⟩) ⟨"", none⟩).1).responseShown =
      some "no projects found" ∧
    (renderProjectsPlain
        (handleSubmit projectsGenericMsg "water"
          (.ok ⟨none, none, "no projects found", 1, some [], none⟩) ⟨"", none⟩).1).headingCount =
      none :=
  ⟨by decide,
   (empty_results_still_answered projectsGenericMsg "water"
      ⟨none, none, "no projects found", 1, some [], none⟩ ⟨"", none⟩ (by decide)
      SearchData.projects false rfl).1,
   (empty_results_still_answered projectsGenericMsg "water"
      ⟨none, none, "no projects found", 1, some [], none⟩ ⟨"", none⟩ (by decide)
      SearchData.projects false rfl).2.2⟩

/-- C10: the card description of every component variant shows exactly the
first 150 characters followed by `...` when the description is longer than
150 characters, and the unchanged description when its length is at most
150. -/
theorem description_truncation_spec (d : String) :
    (d.length > 150 →
      renderDescription (some d) = some (String.mk (d.data.take 150) ++ "...") ∧
      (String.mk (d.data.take 150)).length = 150) ∧
    (d ≠ "" → d.length ≤ 150 → renderDescription (some d) = some d) := by
  constructor
  · intro hlen
    have hne : d ≠ "" := by
      intro h
      rw [h] at hlen
      simp [String.length] at hlen
    refine ⟨by simp [renderDescription, hne, hlen], ?_⟩
    show (d.data.take 150).length = 150
    rw [List.length_take]
    exact Nat.min_eq_left (Nat.le_of_lt hlen)
  · intro hne hlen
    simp [renderDescription, hne, Nat.not_lt.mpr hlen]

theorem description_truncation_spec_witness :
    (String.mk (List.replicate 151 'a')).length > 150 ∧
    renderDescription (some (String.mk (List.replicate 151 'a'))) =
      some (String.mk ((String.mk (List.replicate 151 'a')).data.take 150) ++ "...") ∧
    renderDescription (some "short") = some "short" :=
  ⟨by simp [String.length],
   ((description_truncation_spec (String.mk (List.replicate 151 'a'))).1
      (by simp [String.length])).1,
   (description_truncation_spec "short").2 (by decide) (by decide)⟩

lemma dot_mem_toFixed3 (q : ℚ) : '.' ∈ (toFixed3 q).data := by
  show '.' ∈ (if round (q * 1000) < 0 then ['-'] else []) ++
    (toString ((round (q * 1000)).natAbs / 1000)).data ++ ['.'] ++
    fracDigits3 (round (q * 1000)).natAbs
  simp

lemma toFixed3_ne_na (q : ℚ) : toFixed3 q ≠ "N/A" := by
  intro h
  have h1 : '.' ∈ (toFixed3 q).data := dot_mem_toFixed3 q
  rw [h] at h1
  exact absurd h1 (by decide)

/-- C8: the Dashboard's `Avg Response Time` card is computed from the
projects agent's `query_times` only (awards metrics never change it); it
shows the mean of those times rendered with `toFixed(3)` when the list is
present and non-empty, and the `avgTimeDisplay` value is `N/A` exactly
when `query_times` is missing or empty; the `Injection Attempts` card is
the sum of both agents' `injection_attempts` lengths. -/
theorem dashboard_cards_spec (p a : AgentMetricsJs) :
    (∀ a', dashboardAvgCard p a = dashboardAvgCard p a') ∧
    (∀ l, p.query_times = some l → l ≠ [] →
      dashboardAvgCard p a = toFixed3 ((l.foldl (· + ·) 0) / (l.length : ℚ)) ++ "s") ∧
    (avgTimeDisplay p = "N/A" ↔ p.query_times = none ∨ p.query_times = some []) ∧
    (∀ lp la, p.injection_attempts = some lp → a.injection_attempts = some la →
      dashboardInjectionsCard p a = lp.length + la.length) := by
  refine ⟨fun a' => rfl, ?_, ?_, ?_⟩
  · intro l hl hne
    have hlen : 0 < l.length := List.length_pos.mpr hne
    simp [dashboardAvgCard, avgTimeDisplay, hl, hlen]
  · constructor
    · intro h
      cases hl : p.query_times with
      | none => exact Or.inl rfl
      | some l =>
          rcases List.eq_nil_or_concat l with hnil | ⟨l', x, hx⟩
          · exact Or.inr (by rw [hnil])
          · exfalso
            have hlen : 0 < l.length := by
              rw [hx]; simp
            rw [avgTimeDisplay, hl] at h
            simp only [hlen, if_pos] at h
            exact toFixed3_ne_na _ h
    · intro h
      rcases h with h | h <;> simp [avgTimeDisplay, h]
  · intro lp la hlp hla
    simp [dashboardInjectionsCard, injectionsCount, hlp, hla]

theorem dashboard_cards_spec_witness :
    dashboardAvgCard
        ⟨some 2, some [1, 3], none, none, some [("d", "q")]⟩
        ⟨some 5, some [7], none, none, some [("d2", "q2"), ("d3", "q3")]⟩ =
      toFixed3 (([1, 3] : List ℚ).foldl (· + ·) 0 / (([1, 3] : List ℚ).length : ℚ)) ++ "s" ∧
    dashboardInjectionsCard
        ⟨some 2, some [1, 3], none, none, some [("d", "q")]⟩
        ⟨some 5, some [7], none, none, some [("d2", "q2"), ("d3", "q3")]⟩ = 3 :=
  ⟨(dashboard_cards_spec _ _).2.1 [1, 3] rfl (by decide),
   (dashboard_cards_spec
      ⟨some 2, some [1, 3], none, none, some [("d", "q")]⟩
      ⟨some 5, some [7], none, none, some [("d2", "q2"), ("d3", "q3")]⟩).2.2.2
      [("d", "q")] [("d2", "q2"), ("d3", "q3")] rfl rfl⟩

/-- C9: the Dashboard's `getTopTerms` returns at most 10 term/count pairs,
their counts in non-increasing order, every returned pair being an entry
of the given mapping; a missing mapping yields the empty list. -/
theorem getTopTerms_spec (l : List (String × ℕ)) :
    getTopTerms none = [] ∧
    (getTopTerms (some l)).length ≤ 10 ∧
    (getTopTerms (some l)).Pairwise byCountDesc ∧
    ∀ p ∈ getTopTerms (some l), p ∈ l := by
  refine ⟨rfl, List.length_take_le 10 _, ?_, ?_⟩
  · exact (List.sorted_insertionSort byCountDesc l).sublist
      (List.take_sublist 10 _)
  · intro p hp
    have h1 : p ∈ List.insertionSort byCountDesc l :=
      List.take_subset 10 _ hp
    exact (List.perm_insertionSort byCountDesc l).subset h1

theorem getTopTerms_spec_witness :
    ("water", 5) ∈ [("bridge", 2), ("water", 5), ("school", 1)] :=
  (getTopTerms_spec [("bridge", 2), ("water", 5), ("school", 1)]).2.2.2
    ("water", 5) (by decide)

lemma applyOps_total_queries (ops : List MetricsOp) :
    ∀ s : MetricsState,
      (applyOps s ops).total_queries = s.total_queries + countSuccess ops := by
  induction ops with
  | nil => intro s; simp [applyOps, countSuccess]
  | cons op rest ih =>
      intro s
      cases op with
      | success d q t =>
          simp [applyOps, countSuccess, List.countP_cons] at ih ⊢
          rw [ih]
          simp [applyOp, record_success]
          omega
      | injection q t =>
          simp [applyOps, countSuccess, List.countP_cons] at ih ⊢
          rw [ih]
          simp [applyOp, record_injection]

lemma applyOps_query_times_length (ops : List MetricsOp) :
    ∀ s : MetricsState,
      (applyOps s ops).query_times.length = s.query_times.length + countSuccess ops := by
  induction ops with
  | nil => intro s; simp [applyOps, countSuccess]
  | cons op rest ih =>
      intro s
      cases op with
      | success d q t =>
          simp [applyOps, countSuccess, List.countP_cons] at ih ⊢
          rw [ih]
          simp [applyOp, record_success]
          omega
      | injection q t =>
          simp [applyOps, countSuccess, List.countP_cons] at ih ⊢
          rw [ih]
          simp [applyOp, record_injection]

/-- C6: modelled from the spec — over every sequence of `record_success`
and `record_injection` operations from the initial `MetricsState`,
`total_queries` equals the length of `query_times` (both equal the number
of successful queries recorded), and `record_injection` changes neither of
them nor any field other than `injection_attempts`, to which it appends
one `{date, query}` entry. -/
theorem metrics_queries_invariant (ops : List MetricsOp) :
    (applyOps initMetrics ops).total_queries =
      (applyOps initMetrics ops).query_times.length ∧
    (applyOps initMetrics ops).total_queries = countSuccess ops ∧
    ∀ (s : MetricsState) (q t : String),
      record_injection s q t =
        { total_queries := s.total_queries
        , query_times := s.query_times
        , popular_terms := s.popular_terms
        , queries_by_date := s.queries_by_date
        , injection_attempts := s.injection_attempts ++ [(t, q)] } := by
  refine ⟨?_, ?_, fun s q t => rfl⟩
  · rw [applyOps_total_queries, applyOps_query_times_length]
    simp [initMetrics]
  · rw [applyOps_total_queries]
    simp [initMetrics]

/-- C3, counterexample: the claimed strict monotonicity of `final_score`
in `keyword_matches` fails when `vector_score = 0` — with equal
`vector_score = 0` and equal `field_boost = 0`, `keyword_matches` 0 and 1
give the same `final_score`. -/
theorem final_score_zero_vector_counterexample :
    (0 : ℕ) < 1 ∧ ¬ final_score 0 0 0 < final_score 0 1 0 := by
  constructor
  · decide
  · norm_num [final_score]

/-- C3, amended: modelled from the spec — for a strictly positive
`vector_score` and a nonnegative `field_boost`, `final_score` is strictly
monotone in `keyword_matches` when `vector_score` and `field_boost` are
held fixed. -/
theorem final_score_strict_mono_pos (vs fb : ℚ) (km₁ km₂ : ℕ)
    (hvs : 0 < vs) (hfb : 0 ≤ fb) (hkm : km₁ < km₂) :
    final_score vs km₁ fb < final_score vs km₂ fb := by
  unfold final_score
  have h1 : (0 : ℚ) < 1 + 1 / 10 * fb := by linarith
  have h2 : (km₁ : ℚ) < (km₂ : ℚ) := by exact_mod_cast hkm
  have h3 : vs * (1 + 1 / 10 * (km₁ : ℚ)) < vs * (1 + 1 / 10 * (km₂ : ℚ)) := by
    apply mul_lt_mul_of_pos_left _ hvs
    linarith
  exact mul_lt_mul_of_pos_right h3 h1

theorem final_score_strict_mono_pos_witness :
    final_score (1 / 2) 0 0 < final_score (1 / 2) 1 0 :=
  final_score_strict_mono_pos (1 / 2) 0 0 1 (by norm_num) le_rfl (by decide)



lemma payloadBlocked_iff (d : SearchData) :
    payloadBlocked d = true ↔
      d.success ≠ some true ∧
        ∃ r, d.reason = some r ∧ containsSubstr (lowerStr r) "injection" = true := by
  unfold payloadBlocked
  have hsuc : ((!(d.success == some true)) = true) ↔ d.success ≠ some true := by
    rcases d.success with _ | b
    · simp
    · cases b <;> simp
  cases hr : d.reason with
  | none => simp
  | some r =>
      by_cases hre : r = ""
      · subst hre
        have hcf : containsSubstr (lowerStr "") "injection" = false := by decide
        simp [hcf]
      · simp [hre, hsuc]

/-- C1, counterexample: a payload whose `success` field is absent (not
`false`) and whose `reason` contains `injection` is blocked by `App.jsx`
(`!data.success` is true for an absent field), although the claim's
"exactly when … success false" says such a response is stored — the claim
as stated is false at this concrete input. -/
theorem app_blocked_absent_success_counterexample :
    (processResponse ⟨none, none, false⟩
        (.okJson ⟨none, some "prompt injection detected", "", 0, none, none⟩)).injectionBlocked =
      true ∧
    (processResponse ⟨none, none, false⟩
        (.okJson ⟨none, some "prompt injection detected", "", 0, none, none⟩)).results =
      none ∧
    (⟨none, some "prompt injection detected", "", 0, none, none⟩ : SearchData).success ≠
      some false := by
  have hpb : payloadBlocked
      (⟨none, some "prompt injection detected", "", 0, none, none⟩ : SearchData) = true := by
    decide
  refine ⟨?_, ?_, by decide⟩ <;> simp [processResponse, hpb]

/-- C1, amended: `App.jsx`'s `handleSearch` reaches the blocked state
(`injectionBlocked = true` and `results = null`) exactly for an HTTP 400
response whose body text contains `injection`, or an ok JSON payload whose
`success` field is anything other than `true` (`false` or absent — JS
falsy) and whose `reason` contains `injection` case-insensitively; every
other ok payload — an empty results list included — is stored in `results`
with `injectionBlocked` still `false`, so a blocked query is never
rendered as an ordinary empty result. -/
theorem app_blocked_state_iff (resp : BackendResponse) (prev : AppState) :
    ((processResponse prev resp).injectionBlocked = true ∧
        (processResponse prev resp).results = none ↔
      (∃ body, resp = .http 400 body ∧ containsSubstr body "injection" = true) ∨
      (∃ d, resp = .okJson d ∧ d.success ≠ some true ∧
        ∃ r, d.reason = some r ∧ containsSubstr (lowerStr r) "injection" = true)) ∧
    (∀ d, resp = .okJson d →
      ¬ (d.success ≠ some true ∧
          ∃ r, d.reason = some r ∧ containsSubstr (lowerStr r) "injection" = true) →
      (processResponse prev resp).results = some d ∧
      (processResponse prev resp).injectionBlocked = false) := by
  cases resp with
  | http status body =>
      refine ⟨?_, by intro d hd; cases hd⟩
      by_cases h4 : status = 400
      · subst h4
        by_cases hc : containsSubstr body "injection" = true
        · simp [processResponse, hc]
        · simp [processResponse, hc]
      · simp [processResponse, h4]
  | okJson d =>
      have hiff := payloadBlocked_iff d
      by_cases hpb : payloadBlocked d = true
      · have hproc : processResponse prev (.okJson d) =
            { results := none, error := none, injectionBlocked := true } := by
          simp [processResponse, hpb]
        have hcond := hiff.mp hpb
        refine ⟨?_, ?_⟩
        · rw [hproc]
          exact iff_of_true ⟨rfl, rfl⟩ (Or.inr ⟨d, rfl, hcond.1, hcond.2⟩)
        · intro d' hd' hncond
          cases hd'
          exact absurd hcond hncond
      · have hpbf : payloadBlocked d = false := by
          rw [Bool.not_eq_true] at hpb
          exact hpb
        have hproc : processResponse prev (.okJson d) =
            { results := some d, error := none, injectionBlocked := false } := by
          simp [processResponse, hpbf]
        refine ⟨?_, ?_⟩
        · rw [hproc]
          refine iff_of_false (by rintro ⟨h, -⟩; cases h) ?_
          rintro (⟨body, hbody, -⟩ | ⟨d', hd', hsucc, hreason⟩)
          · cases hbody
          · cases hd'
            exact hpb (hiff.mpr ⟨hsucc, hreason⟩)
        · intro d' hd' hncond
          cases hd'
          rw [hproc]
          exact ⟨rfl, rfl⟩

theorem app_blocked_state_iff_witness :
    (processResponse ⟨none, none, false⟩
        (.okJson ⟨some true, none, "two projects found", 1, some [], none⟩)).results =
      some ⟨some true, none, "two projects found", 1, some [], none⟩ ∧
    (processResponse ⟨none, none, false⟩
        (.okJson ⟨none, none, "no matches", 1, some [], none⟩)).results =
      some ⟨none, none, "no matches", 1, some [], none⟩ ∧
    (processResponse ⟨none, none, false⟩
        (.okJson ⟨none, none, "no matches", 1, some [], none⟩)).injectionBlocked = false :=
  ⟨((app_blocked_state_iff
       (.okJson ⟨some true, none, "two projects found", 1, some [], none⟩)
       ⟨none, none, false⟩).2
      ⟨some true, none, "two projects found", 1, some [], none⟩ rfl
      (by rintro ⟨h, -⟩; exact h rfl)).1,
   ((app_blocked_state_iff
       (.okJson ⟨none, none, "no matches", 1, some [], none⟩)
       ⟨none, none, false⟩).2
      ⟨none, none, "no matches", 1, some [], none⟩ rfl
      (by rintro ⟨-, r, hr, -⟩; cases hr)).1,
   ((app_blocked_state_iff
       (.okJson ⟨none, none, "no matches", 1, some [], none⟩)
       ⟨none, none, false⟩).2
      ⟨none, none, "no matches", 1, some [], none⟩ rfl
      (by rintro ⟨-, r, hr, -⟩; cases hr)).2⟩


/-- C7, counterexample: the plain-CSS `ProjectsSearch` variant displays a
result (the response paragraph is rendered) without any elapsed-time
element, so not every search component shows `execution_time` — the claim
fails on this component at this concrete displayed result. -/
theorem plain_render_lacks_time :
    (renderProjectsPlain
        ⟨"", some ⟨none, none, "a project", 1, some [⟨"T", none⟩], none⟩⟩).responseShown =
      some "a project" ∧
    (renderProjectsPlain
        ⟨"", some ⟨none, none, "a project", 1, some [⟨"T", none⟩], none⟩⟩).execTimeShown =
      none := by
  constructor <;> rfl

/-- C7, amended: in the Bootstrap-styled `ProjectsSearch` and
`AwardsSearch` variants, every displayed result shows the answer text
`result.response`, the elapsed time `result.execution_time` formatted with
exactly two digits after the decimal point, and — when the ranked results
array is present and non-empty — a heading whose count is that array's
length; the plain-CSS `ProjectsSearch` and `AwardsSearch` variants show
the answer text and the heading but no elapsed time. -/
theorem boot_render_shows_answer_time_count (s : CompState) (r : SearchData)
    (hr : s.result = some r) :
    (renderProjectsBoot s).responseShown = some r.response ∧
    (renderAwardsBoot s).responseShown = some r.response ∧
    (renderProjectsBoot s).execTimeShown = some (toFixed2 r.execution_time) ∧
    (renderAwardsBoot s).execTimeShown = some (toFixed2 r.execution_time) ∧
    (∃ lead : List Char,
      toFixed2 r.execution_time =
        String.mk (lead ++ ['.'] ++ fracDigits2 (round (r.execution_time * 100)).natAbs) ∧
      (fracDigits2 (round (r.execution_time * 100)).natAbs).length = 2) ∧
    (∀ l, r.projects = some l → l ≠ [] →
      (renderProjectsBoot s).headingCount = some l.length) ∧
    (∀ l, r.awards = some l → l ≠ [] →
      (renderAwardsBoot s).headingCount = some l.length) ∧
    (renderProjectsPlain s).responseShown = some r.response ∧
    (renderProjectsPlain s).execTimeShown = none ∧
    (∀ l, r.projects = some l → l ≠ [] →
      (renderProjectsPlain s).headingCount = some l.length) ∧
    (renderAwardsPlain s).responseShown = some r.response ∧
    (renderAwardsPlain s).execTimeShown = none ∧
    (∀ l, r.awards = some l → l ≠ [] →
      (renderAwardsPlain s).headingCount = some l.length) := by
  have hlead :
      ∃ lead : List Char,
        toFixed2 r.execution_time =
          String.mk (lead ++ ['.'] ++ fracDigits2 (round (r.execution_time * 100)).natAbs) ∧
        (fracDigits2 (round (r.execution_time * 100)).natAbs).length = 2 := by
    refine ⟨(if round (r.execution_time * 100) < 0 then ['-'] else []) ++
      (toString ((round (r.execution_time * 100)).natAbs / 100)).data, ?_, rfl⟩
    unfold toFixed2
    rw [List.append_assoc]
  refine ⟨?_, ?_, ?_, ?_, hlead, ?_, ?_, ?_, ?_, ?_, ?_, ?_, ?_⟩ <;>
    first
    | (intro l hl hne
       have hlen : 0 < l.length := List.length_pos.mpr hne
       simp [renderProjectsBoot, renderAwardsBoot, renderProjectsPlain, renderAwardsPlain,
         renderSearch, hr, hl, hlen])
    | simp [renderProjectsBoot, renderAwardsBoot, renderProjectsPlain, renderAwardsPlain,
        renderSearch, hr]

theorem boot_render_shows_answer_time_count_witness :
    (renderAwardsBoot
        ⟨"", some ⟨none, none, "an award", 2, none, some [⟨"A", none⟩]⟩⟩).execTimeShown =
      some (toFixed2 2) ∧
    (renderAwardsBoot
        ⟨"", some ⟨none, none, "an award", 2, none, some [⟨"A", none⟩]⟩⟩).headingCount =
      some 1 :=
  ⟨(boot_render_shows_answer_time_count
      ⟨"", some ⟨none, none, "an award", 2, none, some [⟨"A", none⟩]⟩⟩
      ⟨none, none, "an award", 2, none, some [⟨"A", none⟩]⟩ rfl).2.2.2.1,
   (boot_render_shows_answer_time_count
      ⟨"", some ⟨none, none, "an award", 2, none, some [⟨"A", none⟩]⟩⟩
      ⟨none, none, "an award", 2, none, some [⟨"A", none⟩]⟩ rfl).2.2.2.2.2.2.1
     [⟨"A", none⟩] rfl (List.cons_ne_nil _ _)⟩
